import Mathlib

/-!
Verification of the Alpine Signal Rating scoring engine.

The scoring engine lives in `server.js`: `calculateScores` (ratings → scores,
priority recommendations, detected patterns) and `detectPatterns`.  Real
arithmetic is modelled exactly with `ℚ`.  The JavaScript idiom
`parseInt(x) || 3` yields 3 both when the field is missing/unparseable (NaN is
falsy) and when it parses to 0 (0 is falsy); inputs are therefore modelled as
`Option ℤ` for ratings and `Option String` for the top challenge, where `none`
stands for a missing or unparseable field.

The static configuration file `wizard_questions.json` is not part of the
embedded source; following the spec, it is modelled as four lookup tables
keyed by the rating, each defined exactly on the keys "1".."5".
-/

attribute [local semireducible] Rat.mul Rat.inv Rat.add Rat.sub Rat.ofScientific

namespace SignalRating

/-- Metric record for the Pipeline category (one entry of
`question_1_pipeline_health.maps_to_metrics`).  The source's
`pipeline_coverage_ratio` field is embedded under the shortened name
`pipeline_coverage`. -/
structure PipelineMetrics where
  lead_velocity_rate : ℚ
  mql_to_sql_conversion : ℚ
  marketing_contribution_pipeline : ℚ
  pipeline_coverage : ℚ
  inbound_lead_volume_growth : ℚ
  lead_response_time : ℚ
deriving DecidableEq

/-- Metric record for the Conversion category (one entry of
`question_2_sales_conversion.maps_to_metrics`). -/
structure ConversionMetrics where
  win_rate : ℚ
  sales_cycle_length : ℚ
  sql_acceptance_rate : ℚ
  demo_to_proposal_rate : ℚ
  proposal_to_won_rate : ℚ
  pipeline_conversion_rate : ℚ
deriving DecidableEq

/-- Metric record for the Expansion category (one entry of
`question_3_customer_success.maps_to_metrics`). -/
structure ExpansionMetrics where
  nrr : ℚ
  grr : ℚ
  churn_rate : ℚ
  expansion_revenue_growth : ℚ
  nps : ℚ
  time_to_first_value : ℚ
deriving DecidableEq

/-- Metric record for the Economics category (one entry of
`question_4_economics_and_efficiency.maps_to_metrics`). -/
structure EconomicsMetrics where
  cac_payback_period : ℚ
  ltv_cac : ℚ
  burn_multiple : ℚ
  sales_rep_ramp_time : ℚ
  quota_attainment : ℚ
  magic_number : ℚ
  rule_of_40 : ℚ
deriving DecidableEq

/-- Modelled from the spec: the configuration file `wizard_questions.json`
(the `maps_to_metrics` tables) is not under the embedded source.  The spec
fixes its shape: for each of the four categories, a table keyed by the
stringified rating "1".."5" yielding a record of named numeric metrics.  A
table is a partial map from the (integer) rating, `none` modelling a missing
key. -/
structure WizardConfig where
  pipelineBundle : ℤ → Option PipelineMetrics
  conversionBundle : ℤ → Option ConversionMetrics
  expansionBundle : ℤ → Option ExpansionMetrics
  economicsBundle : ℤ → Option EconomicsMetrics

/-- Modelled from the spec: a config conforms to the shape of
`wizard_questions.json` when every category table is defined exactly on the
rating keys "1".."5". -/
def ConfigOK (cfg : WizardConfig) : Prop :=
  (∀ r : ℤ, (cfg.pipelineBundle r).isSome ↔ (1 ≤ r ∧ r ≤ 5)) ∧
  (∀ r : ℤ, (cfg.conversionBundle r).isSome ↔ (1 ≤ r ∧ r ≤ 5)) ∧
  (∀ r : ℤ, (cfg.expansionBundle r).isSome ↔ (1 ≤ r ∧ r ≤ 5)) ∧
  (∀ r : ℤ, (cfg.economicsBundle r).isSome ↔ (1 ≤ r ∧ r ≤ 5))

/-- The request body fields read by `calculateScores`: the four rating answers
after `parseInt` (with `none` for a missing/unparseable field) and the raw
top-challenge string (with `none` for a missing field). -/
structure Answers where
  question_1_pipeline_health : Option ℤ
  question_2_sales_conversion : Option ℤ
  question_3_customer_success : Option ℤ
  question_4_economics_and_efficiency : Option ℤ
  question_5_top_challenge : Option String
deriving DecidableEq

/-- `parseInt(answers.x) || 3`: a missing/unparseable rating (`none`, i.e. NaN)
and a rating of 0 are both falsy in JavaScript and default to 3; every other
integer passes through unchanged. -/
def effRating (r : Option ℤ) : ℤ :=
  match r with
  | none => 3
  | some v => if v = 0 then 3 else v

/-- `answers.question_5_top_challenge || 'pipeline'`: a missing field and the
empty string are falsy and default to `"pipeline"`. -/
def effChallenge (c : Option String) : String :=
  match c with
  | none => "pipeline"
  | some s => if s = "" then "pipeline" else s

/-- `pipelineScore` from `calculateScores`. -/
def pipelineScoreOf (m : PipelineMetrics) : ℚ :=
  m.lead_velocity_rate / 0.12 * 0.25 +
  m.mql_to_sql_conversion / 0.28 * 0.25 +
  m.marketing_contribution_pipeline / 0.38 * 0.20 +
  m.pipeline_coverage / 3.8 * 0.15 +
  m.inbound_lead_volume_growth / 0.25 * 0.10 +
  (1 - m.lead_response_time / 24) * 0.05

/-- `conversionScore` from `calculateScores`. -/
def conversionScoreOf (m : ConversionMetrics) : ℚ :=
  m.win_rate / 0.32 * 0.30 +
  (1 - m.sales_cycle_length / 180) * 0.20 +
  m.sql_acceptance_rate / 0.90 * 0.15 +
  m.demo_to_proposal_rate / 0.72 * 0.15 +
  m.proposal_to_won_rate / 0.68 * 0.10 +
  m.pipeline_conversion_rate / 0.42 * 0.10

/-- `expansionScore` from `calculateScores`. -/
def expansionScoreOf (m : ExpansionMetrics) : ℚ :=
  m.nrr / 1.20 * 0.30 +
  m.grr / 0.98 * 0.20 +
  (1 - m.churn_rate) * 0.20 +
  m.expansion_revenue_growth / 0.28 * 0.15 +
  m.nps / 58 * 0.10 +
  (1 - m.time_to_first_value / 60) * 0.05

/-- `economicsScore` from `calculateScores`. -/
def economicsScoreOf (m : EconomicsMetrics) : ℚ :=
  (1 - m.cac_payback_period / 26) * 0.20 +
  m.ltv_cac / 5.8 * 0.20 +
  (1 - m.burn_multiple / 4.0) * 0.15 +
  (1 - m.sales_rep_ramp_time / 6.5) * 0.10 +
  m.quota_attainment / 0.88 * 0.15 +
  m.magic_number / 1.25 * 0.10 +
  m.rule_of_40 / 62 * 0.10

/-- The four category weights. -/
structure Weights where
  pipeline : ℚ
  conversion : ℚ
  expansion : ℚ
  economics : ℚ
deriving DecidableEq

/-- The base weights `{pipeline: 0.30, conversion: 0.30, expansion: 0.25,
economics: 0.15}`. -/
def baseWeights : Weights :=
  { pipeline := 0.30, conversion := 0.30, expansion := 0.25, economics := 0.15 }

/-- The three categories a top challenge can map to. -/
inductive FocusArea
  | pipeline
  | conversion
  | expansion
deriving DecidableEq

/-- The property names an object literal inherits from `Object.prototype`,
whose values are all truthy (functions, and for `__proto__` the prototype
object itself). -/
def objectPrototypeKeys : List String :=
  ["constructor", "hasOwnProperty", "isPrototypeOf", "propertyIsEnumerable",
   "toLocaleString", "toString", "valueOf", "__proto__",
   "__defineGetter__", "__defineSetter__", "__lookupGetter__", "__lookupSetter__"]

/-- Outcome of the truthiness test on `challengeWeightMap[topChallenge]`:
an own key yields its focus-area string (truthy), a key inherited from
`Object.prototype` yields a truthy non-string value, and any other key yields
`undefined` (falsy). -/
inductive ChallengeLookup
  | area (a : FocusArea)
  | inherited
  | absent
deriving DecidableEq

/-- `challengeWeightMap[topChallenge]` as a JavaScript property lookup:
`'pipeline' → pipeline`, `'conversion' → conversion`,
`'retention' → expansion` are the own keys; the object literal also inherits
the truthy `Object.prototype` properties (`"toString"`, `"valueOf"`,
`"constructor"`, `"__proto__"`, ...); every other string reads `undefined`. -/
def challengeWeightMap (topChallenge : String) : ChallengeLookup :=
  if topChallenge = "pipeline" then ChallengeLookup.area FocusArea.pipeline
  else if topChallenge = "conversion" then ChallengeLookup.area FocusArea.conversion
  else if topChallenge = "retention" then ChallengeLookup.area FocusArea.expansion
  else if topChallenge ∈ objectPrototypeKeys then ChallengeLookup.inherited
  else ChallengeLookup.absent

/-- A JavaScript number on the weight path: exact finite value or NaN
(infinities never arise there: the only divisors are 1.045-style positive
totals or NaN). -/
inductive JsNum
  | num (q : ℚ)
  | nan
deriving DecidableEq

/-- JavaScript addition on the weight path: finite plus finite is exact, any
NaN operand gives NaN. -/
def JsNum.add : JsNum → JsNum → JsNum
  | JsNum.num a, JsNum.num b => JsNum.num (a + b)
  | _, _ => JsNum.nan

/-- JavaScript multiplication on the weight path: finite times finite is
exact, any NaN operand gives NaN. -/
def JsNum.mul : JsNum → JsNum → JsNum
  | JsNum.num a, JsNum.num b => JsNum.num (a * b)
  | _, _ => JsNum.nan

/-- JavaScript `<`: false whenever an operand is NaN. -/
def JsNum.lt : JsNum → JsNum → Prop
  | JsNum.num a, JsNum.num b => a < b
  | _, _ => False

instance : LT JsNum := ⟨JsNum.lt⟩

def JsNum.decLt : (a b : JsNum) → Decidable (JsNum.lt a b)
  | JsNum.num a, JsNum.num b => inferInstanceAs (Decidable (a < b))
  | JsNum.num _, JsNum.nan => isFalse (fun h => h)
  | JsNum.nan, _ => isFalse (fun h => h)

instance (a b : JsNum) : Decidable (a < b) := JsNum.decLt a b

/-- The JavaScript test `0 <= x && x <= 1`: false on NaN. -/
def JsNum.in01 : JsNum → Bool
  | JsNum.num q => decide (0 ≤ q ∧ q ≤ 1)
  | JsNum.nan => false

/-- `weights[focusArea] *= 1.15`. -/
def boostWeight (w : Weights) : FocusArea → Weights
  | FocusArea.pipeline => { w with pipeline := w.pipeline * 1.15 }
  | FocusArea.conversion => { w with conversion := w.conversion * 1.15 }
  | FocusArea.expansion => { w with expansion := w.expansion * 1.15 }

/-- `Object.values(weights).reduce((a, b) => a + b, 0)`. -/
def Weights.total (w : Weights) : ℚ :=
  w.pipeline + w.conversion + w.expansion + w.economics

/-- `Object.keys(weights).forEach(key => weights[key] /= totalWeight)`. -/
def scaleWeights (w : Weights) (t : ℚ) : Weights :=
  { pipeline := w.pipeline / t, conversion := w.conversion / t,
    expansion := w.expansion / t, economics := w.economics / t }

/-- The four category weights as the JavaScript numbers they hold after the
adjustment step (each possibly NaN). -/
structure JsWeights where
  pipeline : JsNum
  conversion : JsNum
  expansion : JsNum
  economics : JsNum
deriving DecidableEq

/-- A finite weight record viewed as JavaScript numbers. -/
def Weights.toJs (w : Weights) : JsWeights :=
  { pipeline := JsNum.num w.pipeline, conversion := JsNum.num w.conversion,
    expansion := JsNum.num w.expansion, economics := JsNum.num w.economics }

/-- The corrupted weight record: all four own weights NaN. -/
def nanWeights : JsWeights :=
  { pipeline := JsNum.nan, conversion := JsNum.nan,
    expansion := JsNum.nan, economics := JsNum.nan }

/-- `Object.values(weights).reduce((a, b) => a + b, 0)` over the four own
weights after adjustment. -/
def JsWeights.totalJs (w : JsWeights) : JsNum :=
  ((((JsNum.num 0).add w.pipeline).add w.conversion).add w.expansion).add
    w.economics

/-- The weight-adjustment step of `calculateScores`: the truthiness test
`if (challengeWeightMap[topChallenge])` passes for the three own keys AND for
the truthy properties inherited from `Object.prototype`.  For an own key the
focus area's weight is multiplied by 1.15 and all weights are divided by the
new total.  For an inherited key, `weights[focusArea] *= 1.15` coerces the
inherited value to a fresh property key and writes `undefined * 1.15 = NaN`
under it; `Object.values(weights).reduce(...)` then sums the four base
weights with that NaN to NaN, and `weights[key] /= totalWeight` turns each of
the four own weights into NaN.  A falsy (`undefined`) lookup keeps the base
weights. -/
def adjustWeights (topChallenge : String) : JsWeights :=
  match challengeWeightMap topChallenge with
  | ChallengeLookup.area area =>
      let boosted := boostWeight baseWeights area
      (scaleWeights boosted boosted.total).toJs
  | ChallengeLookup.inherited => nanWeights
  | ChallengeLookup.absent => baseWeights.toJs

/-- `overallSSI` over finite weights: the weighted combination of the four
category scores. -/
def overallSSIOf (pipelineScore conversionScore expansionScore economicsScore : ℚ)
    (w : Weights) : ℚ :=
  pipelineScore * w.pipeline + conversionScore * w.conversion +
  expansionScore * w.expansion + economicsScore * w.economics

/-- `overallSSI` as computed on JavaScript numbers: the category scores are
finite, the weights may be NaN (in which case NaN propagates through the
products and sums). -/
def overallSSIJs (pipelineScore conversionScore expansionScore economicsScore : ℚ)
    (w : JsWeights) : JsNum :=
  ((((JsNum.num pipelineScore).mul w.pipeline).add
      ((JsNum.num conversionScore).mul w.conversion)).add
    ((JsNum.num expansionScore).mul w.expansion)).add
    ((JsNum.num economicsScore).mul w.economics)

/-- `Math.max(0, Math.min(1, x))`. -/
def clamp01 (q : ℚ) : ℚ := max 0 (min 1 q)

/-- `Math.max(0, Math.min(1, x))` on a JavaScript number: both `Math.min` and
`Math.max` return NaN when an argument is NaN, so the clamp does not repair
NaN. -/
def clamp01Js : JsNum → JsNum
  | JsNum.num q => JsNum.num (clamp01 q)
  | JsNum.nan => JsNum.nan

/-- `Math.round(x)` on a finite value: the integer nearest to `x`, halves
rounded toward positive infinity. -/
def mathRound (q : ℚ) : ℤ := ⌊q + 1 / 2⌋

/-- One element of the `allMetrics` array built by `calculateScores`. -/
structure MetricItem where
  name : String
  score : ℚ
  loop : String
  value : ℚ
deriving DecidableEq

/-- The comparator `(a, b) => a.score - b.score` of the priority sort, as the
ordering it induces. -/
def scoreLE (a b : MetricItem) : Prop := a.score ≤ b.score

instance : DecidableRel scoreLE :=
  fun a b => inferInstanceAs (Decidable (a.score ≤ b.score))

instance : IsTotal MetricItem scoreLE :=
  ⟨fun a b => le_total a.score b.score⟩

instance : IsTrans MetricItem scoreLE :=
  ⟨fun _ _ _ h1 h2 => le_trans h1 h2⟩

/-- The fixed nine-element `allMetrics` list of `calculateScores`. -/
def allMetricsOf (pm : PipelineMetrics) (cm : ConversionMetrics)
    (em : ExpansionMetrics) (ecm : EconomicsMetrics) : List MetricItem :=
  [{ name := "Lead Velocity Rate", score := pm.lead_velocity_rate / 0.12,
     loop := "Pipeline", value := pm.lead_velocity_rate },
   { name := "MQL to SQL Conversion", score := pm.mql_to_sql_conversion / 0.28,
     loop := "Pipeline", value := pm.mql_to_sql_conversion },
   { name := "Lead Response Time", score := 1 - pm.lead_response_time / 24,
     loop := "Pipeline", value := pm.lead_response_time },
   { name := "Win Rate", score := cm.win_rate / 0.32,
     loop := "Conversion", value := cm.win_rate },
   { name := "Sales Cycle Length", score := 1 - cm.sales_cycle_length / 180,
     loop := "Conversion", value := cm.sales_cycle_length },
   { name := "Net Revenue Retention", score := em.nrr / 1.20,
     loop := "Expansion", value := em.nrr },
   { name := "Churn Rate", score := 1 - em.churn_rate,
     loop := "Expansion", value := em.churn_rate },
   { name := "CAC Payback Period", score := 1 - ecm.cac_payback_period / 26,
     loop := "Economics", value := ecm.cac_payback_period },
   { name := "LTV:CAC Ratio", score := ecm.ltv_cac / 5.8,
     loop := "Economics", value := ecm.ltv_cac }]

/-- `s.includes(pat)`: substring containment test used by
`formatMetricValue`. -/
def strContains (s pat : String) : Bool :=
  (List.range (s.length + 1)).any
    (fun i => decide (((s.toList.drop i).take pat.length) = pat.toList))

/-- The value produced by `formatMetricValue`, by formatting branch.  The
numeric payload is kept exactly: `percentVal n` stands for the string `"n%"`,
`daysVal n` for `"n days"`, `ratioVal q` for `q.toFixed(1) ++ ":1"` and
`plainVal q` for `q.toFixed(2)`. -/
inductive FormattedValue
  | percentVal (n : ℤ)
  | daysVal (n : ℤ)
  | ratioVal (q : ℚ)
  | plainVal (q : ℚ)
deriving DecidableEq

/-- `formatMetricValue`: formatting dispatch by substring match on the metric's
display name. -/
def formatMetricValue (metricName : String) (value : ℚ) : FormattedValue :=
  if strContains metricName "Rate" || strContains metricName "Conversion" ||
      strContains metricName "Retention" then
    FormattedValue.percentVal (mathRound (value * 100))
  else if strContains metricName "Time" || strContains metricName "Length" ||
      strContains metricName "Period" then
    FormattedValue.daysVal (mathRound value)
  else if strContains metricName "Ratio" then
    FormattedValue.ratioVal value
  else
    FormattedValue.plainVal value

/-- One entry of `priority_recommendations`.  The `description` field models the
variable part of the template string `Current value: ...`. -/
structure Recommendation where
  name : String
  score : ℤ
  loop : String
  description : FormattedValue
deriving DecidableEq

/-- The `.map(metric => ...)` step building a recommendation from a metric
item: the score is `Math.round(metric.score * 100)`. -/
def mkRecommendation (m : MetricItem) : Recommendation :=
  { name := m.name, score := mathRound (m.score * 100), loop := m.loop,
    description := formatMetricValue m.name m.value }

/-- One entry of `detected_patterns`. -/
structure Pattern where
  pattern : String
  description : String
  priority : String
deriving DecidableEq

/-- `detectPatterns`: four independent threshold predicates over the four raw
ratings, evaluated in fixed order; the score arguments are received but never
read, exactly as in the source. -/
def detectPatterns (answers : Answers)
    (pipelineScore conversionScore expansionScore : ℚ) : List Pattern :=
  let pipelineRating := effRating answers.question_1_pipeline_health
  let conversionRating := effRating answers.question_2_sales_conversion
  let expansionRating := effRating answers.question_3_customer_success
  let economicsRating := effRating answers.question_4_economics_and_efficiency
  (if 4 ≤ pipelineRating ∧ conversionRating ≤ 2 then
    [{ pattern := "pipeline_conversion_gap",
       description := "Strong pipeline but weak conversion - focus on sales enablement",
       priority := "high" }]
  else []) ++
  (if 4 ≤ conversionRating ∧ expansionRating ≤ 2 then
    [{ pattern := "leaky_bucket",
       description := "Acquiring customers but losing them - prioritize customer success",
       priority := "critical" }]
  else []) ++
  (if pipelineRating ≤ 2 ∧ conversionRating ≤ 2 ∧ expansionRating ≤ 2 then
    [{ pattern := "systematic_issues",
       description := "Multiple weak areas suggest fundamental GTM challenges",
       priority := "critical" }]
  else []) ++
  (if economicsRating ≤ 2 ∧ (3 ≤ pipelineRating ∨ 3 ≤ conversionRating) then
    [{ pattern := "unit_economics_problem",
       description := "Operations functional but economics unsustainable",
       priority := "high" }]
  else [])

/-- The three loop scores returned to the caller (field names as in the JSON
response). -/
structure LoopScores where
  Pipeline : ℚ
  Conversion : ℚ
  Expansion : ℚ
deriving DecidableEq

/-- The object returned by `calculateScores`.  `overall_ssi` is a JavaScript
number because the weight corruption on inherited challenge keys makes it NaN;
the three loop scores never involve the weights and stay finite. -/
structure ScoreResult where
  overall_ssi : JsNum
  loop_scores : LoopScores
  priority_recommendations : List Recommendation
  detected_patterns : List Pattern
deriving DecidableEq

/-- The body of `calculateScores` after the four metric lookups have
succeeded: category scores, weight adjustment, clamped overall and loop
scores, the sorted-and-truncated priority recommendations, and the detected
patterns. -/
def scoreResultOf (answers : Answers) (pipelineMetrics : PipelineMetrics)
    (conversionMetrics : ConversionMetrics) (expansionMetrics : ExpansionMetrics)
    (economicsMetrics : EconomicsMetrics) : ScoreResult :=
  let pipelineScore := pipelineScoreOf pipelineMetrics
  let conversionScore := conversionScoreOf conversionMetrics
  let expansionScore := expansionScoreOf expansionMetrics
  let economicsScore := economicsScoreOf economicsMetrics
  let weights := adjustWeights (effChallenge answers.question_5_top_challenge)
  { overall_ssi :=
      clamp01Js (overallSSIJs pipelineScore conversionScore expansionScore
        economicsScore weights),
    loop_scores :=
      { Pipeline := clamp01 pipelineScore, Conversion := clamp01 conversionScore,
        Expansion := clamp01 expansionScore },
    priority_recommendations :=
      ((List.insertionSort scoreLE
        (allMetricsOf pipelineMetrics conversionMetrics expansionMetrics
          economicsMetrics)).take 5).map mkRecommendation,
    detected_patterns :=
      detectPatterns answers pipelineScore conversionScore expansionScore }

/-- `calculateScores`: look up the four metric records by effective rating;
a missing key makes the subsequent property accesses throw (modelled as
`none`); otherwise produce the score result. -/
def calculateScores (cfg : WizardConfig) (answers : Answers) : Option ScoreResult :=
  match cfg.pipelineBundle (effRating answers.question_1_pipeline_health),
        cfg.conversionBundle (effRating answers.question_2_sales_conversion),
        cfg.expansionBundle (effRating answers.question_3_customer_success),
        cfg.economicsBundle (effRating answers.question_4_economics_and_efficiency) with
  | some pipelineMetrics, some conversionMetrics, some expansionMetrics,
    some economicsMetrics =>
      some (scoreResultOf answers pipelineMetrics conversionMetrics
        expansionMetrics economicsMetrics)
  | _, _, _, _ => none

/-- A pipeline metric record with every metric 0. -/
def zeroPipelineMetrics : PipelineMetrics := ⟨0, 0, 0, 0, 0, 0⟩

/-- A conversion metric record with every metric 0. -/
def zeroConversionMetrics : ConversionMetrics := ⟨0, 0, 0, 0, 0, 0⟩

/-- An expansion metric record with every metric 0. -/
def zeroExpansionMetrics : ExpansionMetrics := ⟨0, 0, 0, 0, 0, 0⟩

/-- An economics metric record with every metric 0. -/
def zeroEconomicsMetrics : EconomicsMetrics := ⟨0, 0, 0, 0, 0, 0, 0⟩

/-- A concrete spec-conforming configuration: every rating key 1..5 maps to the
all-zero metric record of its category. -/
def sampleConfig : WizardConfig :=
  { pipelineBundle := fun r =>
      if 1 ≤ r ∧ r ≤ 5 then some zeroPipelineMetrics else none,
    conversionBundle := fun r =>
      if 1 ≤ r ∧ r ≤ 5 then some zeroConversionMetrics else none,
    expansionBundle := fun r =>
      if 1 ≤ r ∧ r ≤ 5 then some zeroExpansionMetrics else none,
    economicsBundle := fun r =>
      if 1 ≤ r ∧ r ≤ 5 then some zeroEconomicsMetrics else none }

/-- A concrete answer set: all four ratings 3, top challenge "other". -/
def sampleAnswers : Answers :=
  ⟨some 3, some 3, some 3, some 3, some "other"⟩

/-- A concrete spec-conforming configuration on which every category score is
exactly 0 at every rating: the lower-is-better metrics sit at their benchmark
denominators (`lead_response_time` 24, `sales_cycle_length` 180, `churn_rate`
1, `time_to_first_value` 60, `cac_payback_period` 26, `burn_multiple` 4,
`sales_rep_ramp_time` 6.5) and every other metric is 0. -/
def eqScoresConfig : WizardConfig :=
  { pipelineBundle := fun r =>
      if 1 ≤ r ∧ r ≤ 5 then some ⟨0, 0, 0, 0, 0, 24⟩ else none,
    conversionBundle := fun r =>
      if 1 ≤ r ∧ r ≤ 5 then some ⟨0, 180, 0, 0, 0, 0⟩ else none,
    expansionBundle := fun r =>
      if 1 ≤ r ∧ r ≤ 5 then some ⟨0, 0, 1, 0, 0, 60⟩ else none,
    economicsBundle := fun r =>
      if 1 ≤ r ∧ r ≤ 5 then some ⟨26, 0, 4, 6.5, 0, 0, 0⟩ else none }

/-- A concrete spec-conforming configuration whose pipeline records carry a
`lead_response_time` of 48 (twice the 24-hour benchmark), so that the
"Lead Response Time" metric's raw normalized score is `1 - 48/24 = -1`; every
other metric is 0. -/
def slowResponseConfig : WizardConfig :=
  { pipelineBundle := fun r =>
      if 1 ≤ r ∧ r ≤ 5 then some ⟨0, 0, 0, 0, 0, 48⟩ else none,
    conversionBundle := fun r =>
      if 1 ≤ r ∧ r ≤ 5 then some zeroConversionMetrics else none,
    expansionBundle := fun r =>
      if 1 ≤ r ∧ r ≤ 5 then some zeroExpansionMetrics else none,
    economicsBundle := fun r =>
      if 1 ≤ r ∧ r ≤ 5 then some zeroEconomicsMetrics else none }

/-- The answer set of spec property 7: ratings pipeline 4, conversion 2,
expansion 3, economics 3, top challenge "conversion". -/
def gapAnswers : Answers :=
  ⟨some 4, some 2, some 3, some 3, some "conversion"⟩

theorem clamp01_bounds (q : ℚ) : 0 ≤ clamp01 q ∧ clamp01 q ≤ 1 :=
  ⟨le_max_left 0 _, max_le (by norm_num) (min_le_left 1 q)⟩

theorem overallSSIJs_toJs (p c e ec : ℚ) (w : Weights) :
    overallSSIJs p c e ec w.toJs = JsNum.num (overallSSIOf p c e ec w) := rfl

theorem mathRound_mono {a b : ℚ} (h : a ≤ b) : mathRound a ≤ mathRound b :=
  Int.floor_mono (by linarith)

theorem sampleConfig_ok : ConfigOK sampleConfig := by
  refine ⟨?_, ?_, ?_, ?_⟩ <;> intro r <;>
    by_cases h : (1 : ℤ) ≤ r ∧ r ≤ 5 <;> simp [sampleConfig, h]

/-- Inversion of `calculateScores`: a returned result comes from four
successful metric lookups and equals `scoreResultOf` on the records found. -/
theorem calculateScores_some_inv {cfg : WizardConfig} {answers : Answers}
    {res : ScoreResult} (h : calculateScores cfg answers = some res) :
    ∃ pm cm em ecm,
      cfg.pipelineBundle (effRating answers.question_1_pipeline_health) = some pm ∧
      cfg.conversionBundle (effRating answers.question_2_sales_conversion) = some cm ∧
      cfg.expansionBundle (effRating answers.question_3_customer_success) = some em ∧
      cfg.economicsBundle (effRating answers.question_4_economics_and_efficiency) = some ecm ∧
      res = scoreResultOf answers pm cm em ecm := by
  unfold calculateScores at h
  split at h
  · rename_i pm cm em ecm h1 h2 h3 h4
    injection h with h
    exact ⟨pm, cm, em, ecm, h1, h2, h3, h4, h.symm⟩
  · exact absurd h (by simp)

theorem filter_orderedInsert_of_eq (a : MetricItem) (q : ℚ) (ha : a.score = q) :
    ∀ l : List MetricItem,
      (List.orderedInsert scoreLE a l).filter (fun m => decide (m.score = q)) =
        a :: l.filter (fun m => decide (m.score = q))
  | [] => by simp [List.orderedInsert, ha]
  | b :: t => by
    by_cases hb : scoreLE a b
    · simp [List.orderedInsert, hb, ha]
    · have hlt : b.score < a.score := lt_of_not_le hb
      have hbq : ¬ b.score = q := by rw [← ha]; exact ne_of_lt hlt
      simp only [List.orderedInsert, if_neg hb, List.filter_cons,
        decide_eq_true_eq, if_neg hbq, filter_orderedInsert_of_eq a q ha t]

theorem filter_orderedInsert_of_ne (a : MetricItem) (q : ℚ) (ha : ¬ a.score = q) :
    ∀ l : List MetricItem,
      (List.orderedInsert scoreLE a l).filter (fun m => decide (m.score = q)) =
        l.filter (fun m => decide (m.score = q))
  | [] => by simp [List.orderedInsert, ha]
  | b :: t => by
    by_cases hb : scoreLE a b
    · simp [List.orderedInsert, hb, ha]
    · simp only [List.orderedInsert, if_neg hb, List.filter_cons,
        filter_orderedInsert_of_ne a q ha t]

/-- Stability of the priority sort: for every score value, the sorted list
restricted to the items carrying that score is exactly the original list
restricted to them, in the original order. -/
theorem filter_insertionSort (q : ℚ) :
    ∀ l : List MetricItem,
      (List.insertionSort scoreLE l).filter (fun m => decide (m.score = q)) =
        l.filter (fun m => decide (m.score = q))
  | [] => rfl
  | a :: t => by
    by_cases ha : a.score = q
    · simp only [List.insertionSort, filter_orderedInsert_of_eq a q ha,
        filter_insertionSort q t, List.filter_cons, decide_eq_true_eq, if_pos ha]
    · simp only [List.insertionSort, filter_orderedInsert_of_ne a q ha,
        filter_insertionSort q t, List.filter_cons, decide_eq_true_eq, if_neg ha]

/-- C1 counterexample: with all four ratings 3 (in {1,2,3,4,5}) and
topChallenge "toString" — a truthy property inherited from
`Object.prototype` — the boost branch is taken, all four weights become NaN,
and the returned `overall_ssi` is NaN, which the final clamp does not repair;
the JavaScript range test `0 <= x && x <= 1` is false on it, so the claim
fails as universally stated over topChallenge strings. -/
theorem c1_counterexample :
    (calculateScores sampleConfig
        ⟨some 3, some 3, some 3, some 3, some "toString"⟩).map
      (fun r => r.overall_ssi.in01) = some false := by
  decide

/-- C1 amended: whenever `calculateScores` returns a result, the three
returned loop scores always lie in [0,1] (they are clamped and never touch the
weights); `overall_ssi` is a finite value in [0,1] provided the topChallenge
lookup does not hit a truthy inherited `Object.prototype` key — on inherited
keys such as "toString" the corrupted NaN weights make it NaN instead. -/
theorem c1_clamping (cfg : WizardConfig) (answers : Answers) (res : ScoreResult)
    (h : calculateScores cfg answers = some res) :
    (0 ≤ res.loop_scores.Pipeline ∧ res.loop_scores.Pipeline ≤ 1) ∧
    (0 ≤ res.loop_scores.Conversion ∧ res.loop_scores.Conversion ≤ 1) ∧
    (0 ≤ res.loop_scores.Expansion ∧ res.loop_scores.Expansion ≤ 1) ∧
    (challengeWeightMap (effChallenge answers.question_5_top_challenge) ≠
        ChallengeLookup.inherited →
      ∃ q : ℚ, res.overall_ssi = JsNum.num q ∧ 0 ≤ q ∧ q ≤ 1) ∧
    (challengeWeightMap (effChallenge answers.question_5_top_challenge) =
        ChallengeLookup.inherited →
      res.overall_ssi = JsNum.nan) := by
  obtain ⟨pm, cm, em, ecm, h1, h2, h3, h4, rfl⟩ := calculateScores_some_inv h
  have hov : (scoreResultOf answers pm cm em ecm).overall_ssi =
      clamp01Js (overallSSIJs (pipelineScoreOf pm) (conversionScoreOf cm)
        (expansionScoreOf em) (economicsScoreOf ecm)
        (adjustWeights (effChallenge answers.question_5_top_challenge))) := rfl
  refine ⟨clamp01_bounds _, clamp01_bounds _, clamp01_bounds _, ?_, ?_⟩ <;>
    intro hcw
  · rw [hov]
    unfold adjustWeights
    cases hmap : challengeWeightMap (effChallenge answers.question_5_top_challenge) with
    | area a =>
        rw [overallSSIJs_toJs]
        exact ⟨_, rfl, clamp01_bounds _⟩
    | inherited => exact absurd hmap hcw
    | absent =>
        rw [overallSSIJs_toJs]
        exact ⟨_, rfl, clamp01_bounds _⟩
  · rw [hov]
    unfold adjustWeights
    rw [hcw]
    rfl

/-- C1 witness: a concrete run ("other" challenge, not an inherited key) on
which `c1_clamping` yields a finite overall score in [0,1]. -/
theorem c1_clamping_witness :
    (calculateScores sampleConfig sampleAnswers).map
      (fun r => r.overall_ssi.in01) = some true := by
  have hs : (calculateScores sampleConfig sampleAnswers).isSome = true := by decide
  have h := c1_clamping sampleConfig sampleAnswers
    ((calculateScores sampleConfig sampleAnswers).get hs) (Option.some_get hs).symm
  obtain ⟨q, hq, h0, h1⟩ := h.2.2.2.1 (by decide)
  rw [← Option.some_get hs]
  refine congrArg some ?_
  show ((calculateScores sampleConfig sampleAnswers).get hs).overall_ssi.in01 = true
  rw [hq]
  exact decide_eq_true ⟨h0, h1⟩

/-- C2 counterexample: at topChallenge "toString" (a truthy inherited
`Object.prototype` key) the real weight-adjustment branch runs, all four own
weights become NaN, and `Object.values(weights).reduce((a,b) => a+b, 0)` is
NaN — not 1 within any tolerance — so the claim fails as universally stated
over topChallenge values. -/
theorem c2_counterexample :
    adjustWeights "toString" = nanWeights ∧
    (adjustWeights "toString").totalJs = JsNum.nan ∧
    (adjustWeights "toString").totalJs ≠ JsNum.num 1 := by
  refine ⟨by decide, by decide, by decide⟩

/-- C2 amended: for every topChallenge whose lookup does not hit a truthy
inherited `Object.prototype` key, the four adjusted weights are finite and
sum to exactly 1 (base weights, or boost-by-1.15 then renormalize); for an
inherited key all four weights are NaN and their sum is NaN. -/
theorem c2_weights_sum (topChallenge : String) :
    (challengeWeightMap topChallenge ≠ ChallengeLookup.inherited →
      (adjustWeights topChallenge).totalJs = JsNum.num 1) ∧
    (challengeWeightMap topChallenge = ChallengeLookup.inherited →
      adjustWeights topChallenge = nanWeights ∧
      (adjustWeights topChallenge).totalJs = JsNum.nan) := by
  cases hmap : challengeWeightMap topChallenge with
  | area a =>
      refine ⟨fun _ => ?_, fun hcontra => ChallengeLookup.noConfusion hcontra⟩
      unfold adjustWeights
      rw [hmap]
      cases a <;> decide
  | inherited =>
      refine ⟨fun hne => absurd rfl hne, fun _ => ⟨?_, ?_⟩⟩ <;>
        unfold adjustWeights <;> rw [hmap] <;> decide
  | absent =>
      refine ⟨fun _ => ?_, fun hcontra => ChallengeLookup.noConfusion hcontra⟩
      unfold adjustWeights
      rw [hmap]
      decide

/-- C2 witness: the challenge "other" is not an inherited key and its adjusted
weights sum to exactly 1, via `c2_weights_sum`. -/
theorem c2_weights_sum_witness :
    challengeWeightMap "other" ≠ ChallengeLookup.inherited ∧
    (adjustWeights "other").totalJs = JsNum.num 1 :=
  ⟨by decide, (c2_weights_sum "other").1 (by decide)⟩

/-- C3: whenever `calculateScores` returns a result, its
`priority_recommendations` list has exactly 5 entries, obtained by stably
sorting the fixed 9-metric list ascending by each metric's raw normalized
score and taking the first 5; stability (ties broken by original list
position) is expressed by the filter equation: for every score value, the
sorted list restricted to the items carrying it keeps the original order. -/
theorem c3_priority (cfg : WizardConfig) (answers : Answers) (res : ScoreResult)
    (h : calculateScores cfg answers = some res) :
    res.priority_recommendations.length = 5 ∧
    res.priority_recommendations.Pairwise (fun a b => a.score ≤ b.score) ∧
    ∃ pm cm em ecm,
      cfg.pipelineBundle (effRating answers.question_1_pipeline_health) = some pm ∧
      cfg.conversionBundle (effRating answers.question_2_sales_conversion) = some cm ∧
      cfg.expansionBundle (effRating answers.question_3_customer_success) = some em ∧
      cfg.economicsBundle (effRating answers.question_4_economics_and_efficiency) = some ecm ∧
      res.priority_recommendations =
        ((List.insertionSort scoreLE (allMetricsOf pm cm em ecm)).take 5).map
          mkRecommendation ∧
      List.Sorted scoreLE ((List.insertionSort scoreLE (allMetricsOf pm cm em ecm)).take 5) ∧
      ∀ q : ℚ,
        (List.insertionSort scoreLE (allMetricsOf pm cm em ecm)).filter
            (fun m => decide (m.score = q)) =
          (allMetricsOf pm cm em ecm).filter (fun m => decide (m.score = q)) := by
  obtain ⟨pm, cm, em, ecm, h1, h2, h3, h4, rfl⟩ := calculateScores_some_inv h
  have hpr : (scoreResultOf answers pm cm em ecm).priority_recommendations =
      ((List.insertionSort scoreLE (allMetricsOf pm cm em ecm)).take 5).map
        mkRecommendation := rfl
  have hsorted :
      List.Sorted scoreLE ((List.insertionSort scoreLE (allMetricsOf pm cm em ecm)).take 5) :=
    List.Pairwise.sublist (List.take_sublist 5 _)
      (List.sorted_insertionSort scoreLE (allMetricsOf pm cm em ecm))
  refine ⟨?_, ?_, pm, cm, em, ecm, h1, h2, h3, h4, hpr, hsorted,
    fun q => filter_insertionSort q (allMetricsOf pm cm em ecm)⟩
  · rw [hpr, List.length_map, List.length_take, List.length_insertionSort]
    rfl
  · rw [hpr, List.pairwise_map]
    refine hsorted.imp ?_
    intro a b hab
    exact mathRound_mono (mul_le_mul_of_nonneg_right hab (by norm_num))

/-- C3 witness: a concrete run of `calculateScores` whose recommendation list
has length 5, via `c3_priority`. -/
theorem c3_priority_witness :
    (calculateScores sampleConfig sampleAnswers).map
      (fun r => r.priority_recommendations.length) = some 5 := by
  have hs : (calculateScores sampleConfig sampleAnswers).isSome = true := by decide
  have h := c3_priority sampleConfig sampleAnswers
    ((calculateScores sampleConfig sampleAnswers).get hs) (Option.some_get hs).symm
  rw [← Option.some_get hs]
  exact congrArg some h.1

/-- C4 counterexample: on a spec-conforming configuration whose pipeline
records carry `lead_response_time = 48`, a valid input (all ratings 3)
produces a priority recommendation whose normalized score lies outside
[0,100] (the "Lead Response Time" entry gets `Math.round(-1 * 100) = -100`),
so the claim fails as stated. -/
theorem c4_counterexample :
    (calculateScores slowResponseConfig sampleAnswers).map
      (fun r => r.priority_recommendations.all
        (fun e => decide (0 ≤ e.score ∧ e.score ≤ 100))) = some false := by
  decide

/-- C4 amended: every entry of `priority_recommendations` carries an integer
normalized score `Math.round(score * 100)`; since the code applies no clamping
here, that integer lies in [0,100] provided every raw normalized score in the
nine-metric list lies in [0,1] (and can escape the range otherwise). -/
theorem c4_score_range (cfg : WizardConfig) (answers : Answers) (res : ScoreResult)
    (pm : PipelineMetrics) (cm : ConversionMetrics) (em : ExpansionMetrics)
    (ecm : EconomicsMetrics)
    (h : calculateScores cfg answers = some res)
    (h1 : cfg.pipelineBundle (effRating answers.question_1_pipeline_health) = some pm)
    (h2 : cfg.conversionBundle (effRating answers.question_2_sales_conversion) = some cm)
    (h3 : cfg.expansionBundle (effRating answers.question_3_customer_success) = some em)
    (h4 : cfg.economicsBundle (effRating answers.question_4_economics_and_efficiency) = some ecm)
    (hb : ∀ m ∈ allMetricsOf pm cm em ecm, 0 ≤ m.score ∧ m.score ≤ 1) :
    ∀ e ∈ res.priority_recommendations, 0 ≤ e.score ∧ e.score ≤ 100 := by
  obtain ⟨pm', cm', em', ecm', h1', h2', h3', h4', rfl⟩ := calculateScores_some_inv h
  injection h1.symm.trans h1' with e1
  injection h2.symm.trans h2' with e2
  injection h3.symm.trans h3' with e3
  injection h4.symm.trans h4' with e4
  subst e1
  subst e2
  subst e3
  subst e4
  intro e he
  obtain ⟨m, hm, rfl⟩ := List.mem_map.1 he
  have hmem : m ∈ allMetricsOf pm cm em ecm :=
    (List.perm_insertionSort scoreLE _).subset (List.take_subset 5 _ hm)
  obtain ⟨hm0, hm1⟩ := hb m hmem
  simp only [mkRecommendation, mathRound]
  constructor
  · exact Int.le_floor.2 (by push_cast; linarith)
  · have hlt : ⌊m.score * 100 + 1 / 2⌋ < (101 : ℤ) :=
      Int.floor_lt.2 (by push_cast; linarith)
    omega

/-- C4 witness: on the all-zero configuration every raw normalized score lies
in [0,1], and `c4_score_range` places every recommendation score in
[0,100]. -/
theorem c4_score_range_witness :
    (calculateScores sampleConfig sampleAnswers).map
      (fun r => r.priority_recommendations.all
        (fun e => decide (0 ≤ e.score ∧ e.score ≤ 100))) = some true := by
  have hs : (calculateScores sampleConfig sampleAnswers).isSome = true := by decide
  have h := c4_score_range sampleConfig sampleAnswers
    ((calculateScores sampleConfig sampleAnswers).get hs)
    zeroPipelineMetrics zeroConversionMetrics zeroExpansionMetrics zeroEconomicsMetrics
    (Option.some_get hs).symm (by decide) (by decide) (by decide) (by decide) (by decide)
  rw [← Option.some_get hs]
  refine congrArg some ?_
  rw [List.all_eq_true]
  intro e he
  exact decide_eq_true (h e he)

/-- C5 counterexample: the input rating 0 is numeric and outside {1,2,3,4,5}
(the stringified key "0" has no bundle entry), yet `calculateScores` succeeds:
`parseInt(x) || 3` treats 0 as falsy and silently replaces it with the default
3, so no failing lookup ever happens. -/
theorem c5_counterexample :
    (calculateScores sampleConfig
      ⟨some 0, some 3, some 3, some 3, some "other"⟩).isSome = true := by
  decide

/-- C5 amended: on every spec-conforming configuration, an input containing a
NONZERO numeric rating outside {1,2,3,4,5} makes `calculateScores` fail (the
lookup has no fallback and the missing key aborts the computation); a rating
of exactly 0, however, is falsy in the `|| 3` default and is silently replaced
by 3. -/
theorem c5_out_of_range_fails (cfg : WizardConfig) (answers : Answers) (v : ℤ)
    (hcfg : ConfigOK cfg)
    (hv : answers.question_1_pipeline_health = some v ∨
      answers.question_2_sales_conversion = some v ∨
      answers.question_3_customer_success = some v ∨
      answers.question_4_economics_and_efficiency = some v)
    (hv0 : v ≠ 0) (hrange : v < 1 ∨ 5 < v) :
    calculateScores cfg answers = none := by
  obtain ⟨hc1, hc2, hc3, hc4⟩ := hcfg
  have heff : effRating (some v) = v := by simp [effRating, hv0]
  have hdom : ¬ (1 ≤ v ∧ v ≤ 5) := by omega
  unfold calculateScores
  rcases hv with hv | hv | hv | hv
  · have hnone : cfg.pipelineBundle (effRating answers.question_1_pipeline_health) = none := by
      rw [hv, heff]
      exact Option.not_isSome_iff_eq_none.1 (fun hs => hdom ((hc1 v).1 hs))
    rw [hnone]
  · have hnone : cfg.conversionBundle (effRating answers.question_2_sales_conversion) = none := by
      rw [hv, heff]
      exact Option.not_isSome_iff_eq_none.1 (fun hs => hdom ((hc2 v).1 hs))
    rw [hnone]
    cases cfg.pipelineBundle (effRating answers.question_1_pipeline_health) <;> rfl
  · have hnone : cfg.expansionBundle (effRating answers.question_3_customer_success) = none := by
      rw [hv, heff]
      exact Option.not_isSome_iff_eq_none.1 (fun hs => hdom ((hc3 v).1 hs))
    rw [hnone]
    cases cfg.pipelineBundle (effRating answers.question_1_pipeline_health) <;>
      cases cfg.conversionBundle (effRating answers.question_2_sales_conversion) <;> rfl
  · have hnone : cfg.economicsBundle (effRating answers.question_4_economics_and_efficiency) = none := by
      rw [hv, heff]
      exact Option.not_isSome_iff_eq_none.1 (fun hs => hdom ((hc4 v).1 hs))
    rw [hnone]
    cases cfg.pipelineBundle (effRating answers.question_1_pipeline_health) <;>
      cases cfg.conversionBundle (effRating answers.question_2_sales_conversion) <;>
      cases cfg.expansionBundle (effRating answers.question_3_customer_success) <;> rfl

/-- C5 witness: a concrete out-of-range nonzero rating (6) on a conforming
configuration makes `calculateScores` fail, via `c5_out_of_range_fails`. -/
theorem c5_out_of_range_fails_witness :
    calculateScores sampleConfig ⟨some 6, some 3, some 3, some 3, some "other"⟩ = none :=
  c5_out_of_range_fails sampleConfig ⟨some 6, some 3, some 3, some 3, some "other"⟩ 6
    sampleConfig_ok (Or.inl rfl) (by decide) (Or.inr (by decide))

/-- C6: for the input with ratings pipeline 4, conversion 2, expansion 3,
economics 3 and topChallenge "conversion", and whatever loop scores are passed
in, the detected patterns contain `pipeline_conversion_gap` (pipeline ≥ 4 and
conversion ≤ 2 holds) and do not contain `leaky_bucket` (conversion ≥ 4
fails). -/
theorem c6_gap_pattern (ps cs es : ℚ) :
    "pipeline_conversion_gap" ∈ (detectPatterns gapAnswers ps cs es).map Pattern.pattern ∧
    "leaky_bucket" ∉ (detectPatterns gapAnswers ps cs es).map Pattern.pattern := by
  have h : detectPatterns gapAnswers ps cs es =
      [{ pattern := "pipeline_conversion_gap",
         description := "Strong pipeline but weak conversion - focus on sales enablement",
         priority := "high" }] := rfl
  rw [h]
  constructor <;> decide

/-- C7: with all four ratings equal to 3 and any topChallenge (and whatever
loop scores are passed in), `detectPatterns` returns the empty list: no
threshold predicate fires at the baseline. -/
theorem c7_baseline_empty (t : Option String) (ps cs es : ℚ) :
    detectPatterns ⟨some 3, some 3, some 3, some 3, t⟩ ps cs es = [] := rfl

/-- C8: for every topChallenge outside the challenge map (such as "other"),
the effective pipeline weight after renormalization is strictly greater under
topChallenge "pipeline" than under the unrecognized value, which keeps the
base weights: 0.345/1.045 > 0.30. -/
theorem c8_pipeline_boost (t : String)
    (h : challengeWeightMap t = ChallengeLookup.absent) :
    (adjustWeights t).pipeline < (adjustWeights "pipeline").pipeline ∧
    (adjustWeights t).pipeline = JsNum.num baseWeights.pipeline ∧
    (adjustWeights "pipeline").pipeline = JsNum.num (0.345 / 1.045) := by
  have hbase : adjustWeights t = baseWeights.toJs := by
    unfold adjustWeights
    rw [h]
  refine ⟨?_, by rw [hbase]; rfl, by decide⟩
  rw [hbase]
  decide

/-- C8 witness: the unrecognized value "other" falls through the challenge map
(it is no own or inherited key) and gets a strictly smaller effective pipeline
weight than "pipeline", via `c8_pipeline_boost`. -/
theorem c8_pipeline_boost_witness :
    challengeWeightMap "other" = ChallengeLookup.absent ∧
    ((adjustWeights "other").pipeline < (adjustWeights "pipeline").pipeline ∧
      (adjustWeights "other").pipeline = JsNum.num baseWeights.pipeline ∧
      (adjustWeights "pipeline").pipeline = JsNum.num (0.345 / 1.045)) :=
  ⟨by decide, c8_pipeline_boost "other" (by decide)⟩

/-- C9 counterexample: on a spec-conforming configuration on which all four
category scores are equal (all 0 here), the same ratings yield the SAME
overall score for a missing topChallenge as for the unrecognized value
"other", so "yields a different overall score" fails as stated: the pipeline
boost changes the weights but not necessarily the weighted sum. -/
theorem c9_counterexample :
    (calculateScores eqScoresConfig ⟨some 3, some 3, some 3, some 3, none⟩).map
        ScoreResult.overall_ssi =
      (calculateScores eqScoresConfig ⟨some 3, some 3, some 3, some 3, some "other"⟩).map
        ScoreResult.overall_ssi := by
  decide

/-- C9 amended: when the topChallenge field is absent or the empty string,
`calculateScores` substitutes the default "pipeline" before the weight
adjustment, so the run is identical to one with an explicit "pipeline" and the
effective pipeline weight (69/209) is strictly larger than under an
unrecognized value such as "other" (3/10); the overall scores of the two runs
differ exactly when the weighted category sums differ, and can coincide (for
instance when all four category scores are equal). -/
theorem c9_default_pipeline :
    (∀ (cfg : WizardConfig) (q1 q2 q3 q4 : Option ℤ),
      calculateScores cfg ⟨q1, q2, q3, q4, none⟩ =
        calculateScores cfg ⟨q1, q2, q3, q4, some "pipeline"⟩) ∧
    (∀ (cfg : WizardConfig) (q1 q2 q3 q4 : Option ℤ),
      calculateScores cfg ⟨q1, q2, q3, q4, some ""⟩ =
        calculateScores cfg ⟨q1, q2, q3, q4, some "pipeline"⟩) ∧
    (adjustWeights (effChallenge none)).pipeline = JsNum.num (69 / 209) ∧
    (adjustWeights "other").pipeline = JsNum.num (3 / 10) ∧
    (adjustWeights "other").pipeline < (adjustWeights (effChallenge none)).pipeline := by
  refine ⟨fun cfg q1 q2 q3 q4 => rfl, fun cfg q1 q2 q3 q4 => rfl,
    by decide, by decide, by decide⟩

/-- C10: two invocations of `calculateScores` that differ only in the
topChallenge field return identical loop scores, identical priority
recommendations and identical detected patterns: topChallenge can influence
only `overall_ssi`, through the weights. -/
theorem c10_challenge_noninterference (cfg : WizardConfig)
    (q1 q2 q3 q4 : Option ℤ) (t t' : Option String) :
    (calculateScores cfg ⟨q1, q2, q3, q4, t⟩).map ScoreResult.loop_scores =
      (calculateScores cfg ⟨q1, q2, q3, q4, t'⟩).map ScoreResult.loop_scores ∧
    (calculateScores cfg ⟨q1, q2, q3, q4, t⟩).map ScoreResult.priority_recommendations =
      (calculateScores cfg ⟨q1, q2, q3, q4, t'⟩).map ScoreResult.priority_recommendations ∧
    (calculateScores cfg ⟨q1, q2, q3, q4, t⟩).map ScoreResult.detected_patterns =
      (calculateScores cfg ⟨q1, q2, q3, q4, t'⟩).map ScoreResult.detected_patterns := by
  unfold calculateScores
  refine ⟨?_, ?_, ?_⟩ <;>
    cases cfg.pipelineBundle (effRating q1) <;>
    cases cfg.conversionBundle (effRating q2) <;>
    cases cfg.expansionBundle (effRating q3) <;>
    cases cfg.economicsBundle (effRating q4) <;>
    rfl

end SignalRating
